import Mathlib

/-!
# The news front end's HTTP client (`news/frontend/src/api.js`)

The module creates one axios instance (`baseURL: '/api'`, `timeout: 60000`) and
exports an object of seven methods; each of them returns what a single call of
`api.get` or `api.post` returns.

The embedding keeps the library side abstract: the transport behind the
instance is a parameter (`Adapter`), a function from the instance defaults, the
request configuration and the state of the outside world to a result and a new
state of the world.  JavaScript strings are Lean strings; a template literal
over a string identifier is concatenation.  An argument that the source leaves
out (`undefined`) is `none`.
-/

namespace NewsApi

/-- HTTP verbs used by the module (`api.get`, `api.post`). -/
inductive Method where
  | GET
  | POST
deriving DecidableEq, Repr

/-- Options given to `axios.create`: the instance defaults. -/
structure Defaults where
  baseURL : String
  timeout : Nat
deriving DecidableEq, Repr

/-- Optional second argument of `api.get` (third of `api.post`): the per-call
configuration.  A key that is not written in the object literal is `none`. -/
structure CallConfig (P : Type) where
  params : Option P
  baseURL : Option String
  timeout : Option Nat
deriving DecidableEq, Repr

/-- The empty per-call configuration (argument left out). -/
def CallConfig.empty {P : Type} : CallConfig P :=
  { params := none, baseURL := none, timeout := none }

/-- Request configuration an axios instance hands to its transport: the verb
and url set by `get`/`post`, the body (`data`), and the keys of the per-call
configuration. -/
structure RequestConfig (P B : Type) where
  method : Method
  url : String
  params : Option P
  data : Option B
  baseURL : Option String
  timeout : Option Nat
deriving DecidableEq, Repr

/-- The transport behind an instance.  It receives the instance defaults and
the request configuration, and acts on the outside world `σ`. -/
abbrev Adapter (σ P B ρ : Type) : Type :=
  Defaults → RequestConfig P B → σ → ρ × σ

/-- State in which the exported methods run: the defaults of the module-level
instance `api` and the outside world. -/
structure Client (σ : Type) where
  defaults : Defaults
  world : σ
deriving DecidableEq, Repr

/-- Instance method `request`: reads the defaults, calls the transport once. -/
def request {σ P B ρ : Type} (adapter : Adapter σ P B ρ) (cfg : RequestConfig P B)
    (s : Client σ) : ρ × Client σ :=
  let out := adapter s.defaults cfg s.world
  (out.1, { defaults := s.defaults, world := out.2 })

/-- Instance method `get(url, config)`. -/
def get {σ P B ρ : Type} (adapter : Adapter σ P B ρ) (url : String)
    (config : CallConfig P) : Client σ → ρ × Client σ :=
  request adapter
    { method := Method.GET, url := url, params := config.params, data := none,
      baseURL := config.baseURL, timeout := config.timeout }

/-- Instance method `post(url, data, config)`. -/
def post {σ P B ρ : Type} (adapter : Adapter σ P B ρ) (url : String)
    (data : Option B) (config : CallConfig P) : Client σ → ρ × Client σ :=
  request adapter
    { method := Method.POST, url := url, params := config.params, data := data,
      baseURL := config.baseURL, timeout := config.timeout }

/-- The constant `api`: `axios.create({ baseURL: '/api', timeout: 60000 })`. -/
def api : Defaults :=
  { baseURL := "/api", timeout := 60000 }

/-- Module state right after loading: the instance has been created, nothing
has been sent. -/
def load {σ : Type} (w : σ) : Client σ :=
  { defaults := api, world := w }

/-! ## The seven exported methods -/

/-- Source: `getArticles(params) { return api.get('/articles', { params }) }`. -/
def getArticles {σ P B ρ : Type} (adapter : Adapter σ P B ρ) (params : Option P) :
    Client σ → ρ × Client σ :=
  get adapter "/articles" { params := params, baseURL := none, timeout := none }

/-- Source: `getArticle(id)`, url is the template literal with `id` spliced
after `/articles/`. -/
def getArticle {σ P B ρ : Type} (adapter : Adapter σ P B ρ) (id : String) :
    Client σ → ρ × Client σ :=
  get adapter ("/articles/" ++ id) CallConfig.empty

/-- Source: `crawlNews() { return api.post('/crawl') }`. -/
def crawlNews {σ P B ρ : Type} (adapter : Adapter σ P B ρ) :
    Client σ → ρ × Client σ :=
  post adapter "/crawl" none CallConfig.empty

/-- Source: `fetchContent(id)`. -/
def fetchContent {σ P B ρ : Type} (adapter : Adapter σ P B ρ) (id : String) :
    Client σ → ρ × Client σ :=
  post adapter ("/articles/" ++ id ++ "/fetch") none CallConfig.empty

/-- Source: `translate(id)`. -/
def translate {σ P B ρ : Type} (adapter : Adapter σ P B ρ) (id : String) :
    Client σ → ρ × Client σ :=
  post adapter ("/articles/" ++ id ++ "/translate") none CallConfig.empty

/-- Source: `fetchAndTranslate(id)`. -/
def fetchAndTranslate {σ P B ρ : Type} (adapter : Adapter σ P B ρ) (id : String) :
    Client σ → ρ × Client σ :=
  post adapter ("/articles/" ++ id ++ "/fetch-and-translate") none CallConfig.empty

/-- Source: `polish(id)`. -/
def polish {σ P B ρ : Type} (adapter : Adapter σ P B ρ) (id : String) :
    Client σ → ρ × Client σ :=
  post adapter ("/articles/" ++ id ++ "/polish") none CallConfig.empty

/-- Keys of the exported object literal, in source order. -/
def exportedNames : List String :=
  ["getArticles", "getArticle", "crawlNews", "fetchContent", "translate",
   "fetchAndTranslate", "polish"]

/-! ## Calls as data -/

/-- The seven keys of the export, as an enumeration. -/
inductive Op where
  | getArticles
  | getArticle
  | crawlNews
  | fetchContent
  | translate
  | fetchAndTranslate
  | polish
deriving DecidableEq, Repr

/-- Name under which an operation is exported. -/
def Op.name : Op → String
  | Op.getArticles => "getArticles"
  | Op.getArticle => "getArticle"
  | Op.crawlNews => "crawlNews"
  | Op.fetchContent => "fetchContent"
  | Op.translate => "translate"
  | Op.fetchAndTranslate => "fetchAndTranslate"
  | Op.polish => "polish"

/-- All operations, in source order. -/
def Op.all : List Op :=
  [Op.getArticles, Op.getArticle, Op.crawlNews, Op.fetchContent, Op.translate,
   Op.fetchAndTranslate, Op.polish]

/-- One invocation of an exported method together with its argument. -/
inductive Call (P : Type) where
  | getArticles (params : Option P)
  | getArticle (id : String)
  | crawlNews
  | fetchContent (id : String)
  | translate (id : String)
  | fetchAndTranslate (id : String)
  | polish (id : String)
deriving DecidableEq, Repr

/-- Which exported method a call invokes. -/
def Call.op {P : Type} : Call P → Op
  | Call.getArticles _ => Op.getArticles
  | Call.getArticle _ => Op.getArticle
  | Call.crawlNews => Op.crawlNews
  | Call.fetchContent _ => Op.fetchContent
  | Call.translate _ => Op.translate
  | Call.fetchAndTranslate _ => Op.fetchAndTranslate
  | Call.polish _ => Op.polish

/-- Dispatch of a call to the exported method it names. -/
def Call.run {σ P B ρ : Type} (adapter : Adapter σ P B ρ) :
    Call P → Client σ → ρ × Client σ
  | Call.getArticles params => NewsApi.getArticles adapter params
  | Call.getArticle id => NewsApi.getArticle adapter id
  | Call.crawlNews => NewsApi.crawlNews adapter
  | Call.fetchContent id => NewsApi.fetchContent adapter id
  | Call.translate id => NewsApi.translate adapter id
  | Call.fetchAndTranslate id => NewsApi.fetchAndTranslate adapter id
  | Call.polish id => NewsApi.polish adapter id

/-- Runs a sequence of calls in order, collecting the returned values. -/
def runAll {σ P B ρ : Type} (adapter : Adapter σ P B ρ) :
    List (Call P) → Client σ → List ρ × Client σ
  | [], s => ([], s)
  | c :: cs, s =>
    let out := c.run adapter s
    let rest := runAll adapter cs out.2
    (out.1 :: rest.1, rest.2)

/-! ## Mock transports -/

/-- One captured request: the instance defaults it went through and the
request configuration. -/
abbrev Entry (P B : Type) : Type := Defaults × RequestConfig P B

/-- A transport that appends every request to a log and answers with
`respond`, which may look at the log so far. -/
def recorder {P B ρ : Type} (respond : List (Entry P B) → Entry P B → ρ) :
    Adapter (List (Entry P B)) P B ρ :=
  fun d cfg log => (respond log (d, cfg), log ++ [(d, cfg)])

/-- A transport that touches nothing and answers with the request
configuration it was given. -/
def echo {P B : Type} : Adapter Unit P B (RequestConfig P B) :=
  fun _ cfg w => (cfg, w)

/-- The request configuration a call hands to the transport, read off by
running the call against `echo`. -/
def Call.descriptor {P : Type} (B : Type) (c : Call P) : RequestConfig P B :=
  (c.run echo (load ())).1

/-- Verb of the request a call issues. -/
def Call.method {P : Type} (c : Call P) : Method :=
  (c.descriptor Unit).method

/-- Path (relative to the base path) of the request a call issues. -/
def Call.path {P : Type} (c : Call P) : String :=
  (c.descriptor Unit).url

/-- Base path in force for a request: a per-call `baseURL` would win over the
instance default. -/
def effectiveBaseURL {P B : Type} (e : Entry P B) : String :=
  e.2.baseURL.getD e.1.baseURL

/-- Timeout in force for a request: a per-call `timeout` would win over the
instance default. -/
def effectiveTimeout {P B : Type} (e : Entry P B) : Nat :=
  e.2.timeout.getD e.1.timeout

/-- Modelled from the spec: the transport library is not part of the
repository; it resolves the url of a request relative to the base path.  The
two are joined with exactly one slash between them (slashes ending the base and
slashes starting the url are dropped); an empty url leaves the base. -/
def combineURLs (baseURL relativeURL : String) : String :=
  if relativeURL.data = [] then baseURL
  else
    String.mk ((baseURL.data.reverse.dropWhile (fun c => c == '/')).reverse
      ++ '/' :: relativeURL.data.dropWhile (fun c => c == '/'))

/-- Full path of a captured request. -/
def fullPath {P B : Type} (e : Entry P B) : String :=
  combineURLs (effectiveBaseURL e) e.2.url

/-- The log a recording transport holds after one call on a freshly loaded
module. -/
def captured {P B ρ : Type} (respond : List (Entry P B) → Entry P B → ρ)
    (c : Call P) : List (Entry P B) :=
  (c.run (recorder respond) (load [])).2.world

/-- Verb and path of every captured request. -/
def verbsAndPaths {P B : Type} (log : List (Entry P B)) : List (Method × String) :=
  log.map (fun e => (e.2.method, e.2.url))

/-- Verb and full path of every captured request. -/
def verbsAndFullPaths {P B : Type} (log : List (Entry P B)) : List (Method × String) :=
  log.map (fun e => (e.2.method, fullPath e))

/-- A transport that always fails with `e`. -/
def failing {σ P B ε α : Type} (e : ε) : Adapter σ P B (Except ε α) :=
  fun _ _ w => (Except.error e, w)

/-- A transport that always succeeds with `r`. -/
def succeeding {σ P B ε α : Type} (r : α) : Adapter σ P B (Except ε α) :=
  fun _ _ w => (Except.ok r, w)

/-! ## Helper lemmas -/

theorem run_eq {σ P B ρ : Type} (adapter : Adapter σ P B ρ) (c : Call P)
    (s : Client σ) :
    c.run adapter s =
      ((adapter s.defaults (c.descriptor B) s.world).1,
       { defaults := s.defaults,
         world := (adapter s.defaults (c.descriptor B) s.world).2 }) := by
  cases c <;> rfl

theorem runAll_defaults {σ P B ρ : Type} (adapter : Adapter σ P B ρ)
    (calls : List (Call P)) (s : Client σ) :
    (runAll adapter calls s).2.defaults = s.defaults := by
  induction calls generalizing s with
  | nil => rfl
  | cons c cs ih =>
    simp only [runAll]
    rw [ih, run_eq]

theorem runAll_recorder_world {P B ρ : Type}
    (respond : List (Entry P B) → Entry P B → ρ) (calls : List (Call P))
    (s : Client (List (Entry P B))) :
    (runAll (recorder respond) calls s).2.world =
      s.world ++ calls.map (fun c => (s.defaults, c.descriptor B)) := by
  induction calls generalizing s with
  | nil => simp [runAll]
  | cons c cs ih =>
    simp only [runAll]
    rw [ih, run_eq]
    simp [recorder]

theorem combineURLs_api_articles (x : String) :
    combineURLs "/api" ("/articles/" ++ x) = "/api/articles/" ++ x := by
  apply String.ext
  simp [combineURLs]

theorem combineURLs_api_articles_suffix (x s : String) :
    combineURLs "/api" ("/articles/" ++ x ++ s) = "/api/articles/" ++ x ++ s := by
  rw [String.append_assoc, combineURLs_api_articles, String.append_assoc]

theorem suffix_of_append_eq (x y s t : String) (h : x ++ s = y ++ t)
    (hlen : s.length ≤ t.length) : s.data <:+ t.data := by
  have hd : x.data ++ s.data = y.data ++ t.data := by
    have := congrArg String.data h
    simpa [String.data_append] using this
  have h1 : s.data <:+ y.data ++ t.data := ⟨x.data, hd⟩
  have h2 : t.data <:+ y.data ++ t.data := ⟨y.data, rfl⟩
  exact List.suffix_of_suffix_length_le h1 h2 hlen

theorem articles_inj (x y s : String)
    (h : "/articles/" ++ x ++ s = "/articles/" ++ y ++ s) : x = y := by
  apply String.ext
  have := congrArg String.data h
  simpa [String.data_append] using this

theorem article_inj (x y : String)
    (h : "/articles/" ++ x = "/articles/" ++ y) : x = y := by
  apply String.ext
  have := congrArg String.data h
  simpa [String.data_append] using this

theorem articles_suffix_ne (x y s t : String) (hlen : s.length ≤ t.length)
    (hst : ¬ s.data <:+ t.data) :
    "/articles/" ++ x ++ s ≠ "/articles/" ++ y ++ t := by
  intro h
  apply hst
  have h2 : x ++ s = y ++ t := by
    apply String.ext
    have := congrArg String.data h
    simpa [String.data_append] using this
  exact suffix_of_append_eq x y s t h2 hlen

theorem crawl_ne_articles (z s : String) : "/crawl" ≠ "/articles/" ++ z ++ s := by
  intro h
  have := congrArg String.data h
  simp [String.data_append] at this

theorem list_ne_article (x : String) : "/articles" ≠ "/articles/" ++ x := by
  intro h
  have := congrArg String.length h
  rw [String.length_append] at this
  have h9 : "/articles".length = 9 := by decide
  have h10 : "/articles/".length = 10 := by decide
  omega

/-! ## Request dispatch -/

/-- C1: against a transport that records what it is handed, each of the seven
exported methods issues exactly one request, with the documented verb and path
(relative to the base path), whatever the identifier and the params value. -/
theorem each_operation_issues_documented_request {P B ρ : Type}
    (respond : List (Entry P B) → Entry P B → ρ) (params : Option P) (id : String) :
    verbsAndPaths (captured respond (Call.getArticles params))
        = [(Method.GET, "/articles")] ∧
    verbsAndPaths (captured respond (Call.getArticle id))
        = [(Method.GET, "/articles/" ++ id)] ∧
    verbsAndPaths (captured respond Call.crawlNews)
        = [(Method.POST, "/crawl")] ∧
    verbsAndPaths (captured respond (Call.fetchContent id))
        = [(Method.POST, "/articles/" ++ id ++ "/fetch")] ∧
    verbsAndPaths (captured respond (Call.translate id))
        = [(Method.POST, "/articles/" ++ id ++ "/translate")] ∧
    verbsAndPaths (captured respond (Call.fetchAndTranslate id))
        = [(Method.POST, "/articles/" ++ id ++ "/fetch-and-translate")] ∧
    verbsAndPaths (captured respond (Call.polish id))
        = [(Method.POST, "/articles/" ++ id ++ "/polish")] :=
  ⟨rfl, rfl, rfl, rfl, rfl, rfl, rfl⟩

/-- C2: the five identifier-bearing methods splice the identifier, as it is,
between `/articles/` and the suffix of the operation, for every string (the
empty one and ones with `/`, `?`, `#`, `%` included); resolved against the
base path the request goes to `/api/articles/` followed by the identifier and
the suffix, so `getArticle("42")` is `GET /api/articles/42` and
`translate("7")` is `POST /api/articles/7/translate`. -/
theorem identifier_spliced_verbatim {P B ρ : Type}
    (respond : List (Entry P B) → Entry P B → ρ) (id : String) :
    (verbsAndPaths (captured respond (Call.getArticle id))
        = [(Method.GET, "/articles/" ++ id ++ "")] ∧
     verbsAndPaths (captured respond (Call.fetchContent id))
        = [(Method.POST, "/articles/" ++ id ++ "/fetch")] ∧
     verbsAndPaths (captured respond (Call.translate id))
        = [(Method.POST, "/articles/" ++ id ++ "/translate")] ∧
     verbsAndPaths (captured respond (Call.fetchAndTranslate id))
        = [(Method.POST, "/articles/" ++ id ++ "/fetch-and-translate")] ∧
     verbsAndPaths (captured respond (Call.polish id))
        = [(Method.POST, "/articles/" ++ id ++ "/polish")]) ∧
    (verbsAndFullPaths (captured respond (Call.getArticle id))
        = [(Method.GET, "/api/articles/" ++ id)] ∧
     verbsAndFullPaths (captured respond (Call.fetchContent id))
        = [(Method.POST, "/api/articles/" ++ id ++ "/fetch")] ∧
     verbsAndFullPaths (captured respond (Call.translate id))
        = [(Method.POST, "/api/articles/" ++ id ++ "/translate")] ∧
     verbsAndFullPaths (captured respond (Call.fetchAndTranslate id))
        = [(Method.POST, "/api/articles/" ++ id ++ "/fetch-and-translate")] ∧
     verbsAndFullPaths (captured respond (Call.polish id))
        = [(Method.POST, "/api/articles/" ++ id ++ "/polish")]) ∧
    (verbsAndFullPaths (captured respond (Call.getArticle "42"))
        = [(Method.GET, "/api/articles/42")] ∧
     verbsAndFullPaths (captured respond (Call.translate "7"))
        = [(Method.POST, "/api/articles/7/translate")] ∧
     verbsAndPaths (captured respond (Call.getArticle ""))
        = [(Method.GET, "/articles/")] ∧
     verbsAndPaths (captured respond (Call.polish "a/b?c#d%e"))
        = [(Method.POST, "/articles/a/b?c#d%e/polish")]) := by
  have full : ∀ (m : Method) (u : String) (l : List (Entry P B)),
      verbsAndFullPaths (l ++ [(api,
          ({ method := m, url := u, params := none, data := none, baseURL := none,
             timeout := none } : RequestConfig P B))])
        = verbsAndFullPaths l ++ [(m, combineURLs "/api" u)] := by
    intro m u l
    simp [verbsAndFullPaths, fullPath, effectiveBaseURL, api]
  refine ⟨⟨?_, rfl, rfl, rfl, rfl⟩, ⟨?_, ?_, ?_, ?_, ?_⟩, ⟨?_, ?_, rfl, rfl⟩⟩
  · simp [verbsAndPaths, captured, Call.run, getArticle, get, request, recorder, load,
      CallConfig.empty]
  · exact (full Method.GET ("/articles/" ++ id) []).trans
      (by rw [combineURLs_api_articles]; rfl)
  · exact (full Method.POST ("/articles/" ++ id ++ "/fetch") []).trans
      (by rw [combineURLs_api_articles_suffix]; rfl)
  · exact (full Method.POST ("/articles/" ++ id ++ "/translate") []).trans
      (by rw [combineURLs_api_articles_suffix]; rfl)
  · exact (full Method.POST ("/articles/" ++ id ++ "/fetch-and-translate") []).trans
      (by rw [combineURLs_api_articles_suffix]; rfl)
  · exact (full Method.POST ("/articles/" ++ id ++ "/polish") []).trans
      (by rw [combineURLs_api_articles_suffix]; rfl)
  · exact (full Method.GET ("/articles/" ++ "42") []).trans
      (by rw [combineURLs_api_articles]; rfl)
  · exact (full Method.POST ("/articles/" ++ "7" ++ "/translate") []).trans
      (by rw [combineURLs_api_articles_suffix]; rfl)

/-- C3: `getArticles(params)` issues one `GET /articles` whose query-parameter
set is the argument itself; called without an argument, the request carries no
query parameters. -/
theorem getArticles_forwards_params {P B ρ : Type}
    (respond : List (Entry P B) → Entry P B → ρ) (log : List (Entry P B))
    (params : Option P) (p : P) :
    (getArticles (recorder respond) params (load log)).2.world
      = log ++ [(api, { method := Method.GET, url := "/articles", params := params,
                        data := none, baseURL := none, timeout := none })] ∧
    ((getArticles (recorder respond) (some p) (load log)).2.world.map
        (fun e => e.2.params)) = log.map (fun e => e.2.params) ++ [some p] ∧
    ((getArticles (recorder respond) none (load log)).2.world.map
        (fun e => e.2.params)) = log.map (fun e => e.2.params) ++ [none] := by
  refine ⟨rfl, ?_, ?_⟩ <;>
    simp [getArticles, get, request, recorder, load]

/-- C4: what a method returns is what the transport returned for the one
request the method issued, and the outside world is left as that one transport
call left it; a transport that fails with `e` makes every method fail with
`e`, one that succeeds with `r` makes every method succeed with `r`. -/
theorem result_is_transport_result {σ P B ρ ε α : Type} (adapter : Adapter σ P B ρ)
    (c : Call P) (s : Client σ) (e : ε) (r : α) (t : Client σ) :
    (c.run adapter s).1 = (adapter s.defaults (c.descriptor B) s.world).1 ∧
    (c.run adapter s).2.world = (adapter s.defaults (c.descriptor B) s.world).2 ∧
    (c.run (failing e : Adapter σ P B (Except ε α)) t).1 = Except.error e ∧
    (c.run (succeeding r : Adapter σ P B (Except ε α)) t).1 = Except.ok r := by
  refine ⟨?_, ?_, ?_, ?_⟩
  · rw [run_eq]
  · rw [run_eq]
  · rw [run_eq]; rfl
  · rw [run_eq]; rfl

/-- C5 (as amended): the export has exactly seven keys, pairwise different:
`getArticles`, `getArticle`, `crawlNews`, `fetchContent`, `translate`,
`fetchAndTranslate` and `polish`. -/
theorem exported_interface :
    exportedNames = ["getArticles", "getArticle", "crawlNews", "fetchContent",
      "translate", "fetchAndTranslate", "polish"] ∧
    exportedNames.length = 7 ∧ exportedNames.Nodup ∧
    Op.all.map Op.name = exportedNames := by
  refine ⟨rfl, rfl, by decide, rfl⟩

/-- C5 (as stated) fails: no exported key is `listArticles`, so the export is
not the list of names the claim gives. -/
theorem listArticles_not_exported :
    ¬ (exportedNames = ["listArticles", "getArticle", "crawlNews", "fetchContent",
        "translate", "fetchAndTranslate", "polish"]) ∧
    "listArticles" ∉ exportedNames := by
  constructor <;> decide

/-- C6: after any sequence of calls on a freshly loaded module, every captured
request went through the defaults `baseURL = "/api"`, `timeout = 60000`, none
carries a per-call `baseURL` or `timeout`, so the base path and timeout in
force are `/api` and 60000 for each; and the defaults are the same after the
calls as before, for every transport and every starting state. -/
theorem configuration_uniform_and_unchanged {σ P B ρ : Type}
    (respond : List (Entry P B) → Entry P B → ρ) (calls : List (Call P))
    (adapter : Adapter σ P B ρ) (c : Call P) (s : Client σ) :
    ((runAll (recorder respond) calls (load [])).2.world.map (fun e => e.1)
        = List.replicate calls.length { baseURL := "/api", timeout := 60000 }) ∧
    ((runAll (recorder respond) calls (load [])).2.world.map
        (fun e => (e.2.baseURL, e.2.timeout))
        = List.replicate calls.length (none, none)) ∧
    ((runAll (recorder respond) calls (load [])).2.world.map effectiveBaseURL
        = List.replicate calls.length "/api") ∧
    ((runAll (recorder respond) calls (load [])).2.world.map effectiveTimeout
        = List.replicate calls.length 60000) ∧
    (c.run adapter s).2.defaults = s.defaults ∧
    (runAll adapter calls s).2.defaults = s.defaults := by
  have hdesc : ∀ d : Call P,
      (d.descriptor B).baseURL = none ∧ (d.descriptor B).timeout = none := by
    intro d
    cases d <;> exact ⟨rfl, rfl⟩
  refine ⟨?_, ?_, ?_, ?_, ?_, runAll_defaults adapter calls s⟩
  · rw [runAll_recorder_world]
    simp only [load, List.nil_append, List.map_map]
    induction calls with
    | nil => rfl
    | cons d ds ih => simpa [List.replicate_succ] using ⟨rfl, ih⟩
  · rw [runAll_recorder_world]
    simp only [load, List.nil_append, List.map_map]
    induction calls with
    | nil => rfl
    | cons d ds ih =>
      simpa [List.replicate_succ, (hdesc d).1, (hdesc d).2] using ih
  · rw [runAll_recorder_world]
    simp only [load, List.nil_append, List.map_map]
    induction calls with
    | nil => rfl
    | cons d ds ih =>
      simpa [List.replicate_succ, effectiveBaseURL, (hdesc d).1, api] using ih
  · rw [runAll_recorder_world]
    simp only [load, List.nil_append, List.map_map]
    induction calls with
    | nil => rfl
    | cons d ds ih =>
      simpa [List.replicate_succ, effectiveTimeout, (hdesc d).2, api] using ih
  · rw [run_eq]

/-- C7: no request carries a body: after any sequence of calls every captured
request has `data` absent; and `crawlNews()` issues `POST /crawl`, that is
`POST /api/crawl`, the url being a constant, with neither query parameters nor
body. -/
theorem no_request_body {P B ρ : Type}
    (respond : List (Entry P B) → Entry P B → ρ) (calls : List (Call P))
    (log : List (Entry P B)) :
    ((runAll (recorder respond) calls (load [])).2.world.map (fun e => e.2.data)
        = List.replicate calls.length none) ∧
    (crawlNews (recorder respond) (load log)).2.world
      = log ++ [(api, { method := Method.POST, url := "/crawl", params := none,
                        data := none, baseURL := none, timeout := none })] ∧
    verbsAndFullPaths (captured respond Call.crawlNews)
      = [(Method.POST, "/api/crawl")] := by
  have hdesc : ∀ d : Call P, (d.descriptor B).data = none := by
    intro d
    cases d <;> rfl
  refine ⟨?_, rfl, ?_⟩
  · rw [runAll_recorder_world]
    simp only [load, List.nil_append, List.map_map]
    induction calls with
    | nil => rfl
    | cons d ds ih => simpa [List.replicate_succ, hdesc d] using ih
  · simp [verbsAndFullPaths, captured, Call.run, crawlNews, post, request, recorder,
      load, fullPath, effectiveBaseURL, api, CallConfig.empty, combineURLs]

/-- C8: over a recording transport, the log after a sequence of calls is the
log before followed by one request per call, in call order, each the request
the call issues when made alone on a freshly loaded module (whatever the
transport answers there); with no call the log is unchanged. -/
theorem log_is_one_request_per_call {P B ρ : Type}
    (respond respond₁ : List (Entry P B) → Entry P B → ρ) (calls : List (Call P))
    (log : List (Entry P B)) (c : Call P) :
    (runAll (recorder respond) calls (load log)).2.world
      = log ++ (calls.map (captured respond₁)).flatten ∧
    (captured respond₁ c).length = 1 ∧
    (runAll (recorder respond) calls (load log)).2.world.length
      = log.length + calls.length ∧
    (runAll (recorder respond) [] (load log)).2.world = log := by
  have hone : ∀ d : Call P, captured respond₁ d = [(api, d.descriptor B)] := by
    intro d
    simp [captured, run_eq, recorder, load]
  have hflat : ∀ ds : List (Call P),
      ds.map (fun d => ((api, d.descriptor B) : Entry P B))
        = (ds.map (captured respond₁)).flatten := by
    intro ds
    induction ds with
    | nil => rfl
    | cons d ds ih => simp [hone, ih]
  have hlog : (runAll (recorder respond) calls (load log)).2.world
      = log ++ calls.map (fun d => (api, d.descriptor B)) := by
    rw [runAll_recorder_world]; rfl
  refine ⟨?_, ?_, ?_, rfl⟩
  · rw [hlog, hflat]
  · rw [hone]; rfl
  · rw [hlog]; simp

/-- C9: the verb together with the path tells which method issued a request:
two calls with the same verb and the same path invoke the same exported
method, whatever their string identifiers. -/
theorem method_path_determine_op {P : Type} (c₁ c₂ : Call P)
    (hm : c₁.method = c₂.method) (hp : c₁.path = c₂.path) : c₁.op = c₂.op := by
  cases c₁ <;> cases c₂ <;> first
    | rfl
    | exact Method.noConfusion hm
    | exact absurd hp (list_ne_article _)
    | exact absurd hp.symm (list_ne_article _)
    | exact absurd hp (crawl_ne_articles _ _)
    | exact absurd hp.symm (crawl_ne_articles _ _)
    | exact absurd hp (articles_suffix_ne _ _ _ _ (by decide) (by decide))
    | exact absurd hp.symm (articles_suffix_ne _ _ _ _ (by decide) (by decide))

/-- Witness for C9 at `translate("7")` twice. -/
theorem method_path_determine_op_witness :
    (Call.translate "7" : Call Nat).method = (Call.translate "7" : Call Nat).method ∧
    (Call.translate "7" : Call Nat).path = (Call.translate "7" : Call Nat).path ∧
    (Call.translate "7" : Call Nat).op = (Call.translate "7" : Call Nat).op :=
  ⟨rfl, rfl, method_path_determine_op (Call.translate "7") (Call.translate "7") rfl rfl⟩

/-- C10: each identifier-bearing method is injective in its identifier: if
`getArticle`, `fetchContent`, `translate`, `fetchAndTranslate` or `polish`
yields the same path for `x` and for `y`, then `x = y`. -/
theorem path_injective_in_identifier {P : Type} (x y : String)
    (h : (Call.getArticle x : Call P).path = (Call.getArticle y : Call P).path ∨
         (Call.fetchContent x : Call P).path = (Call.fetchContent y : Call P).path ∨
         (Call.translate x : Call P).path = (Call.translate y : Call P).path ∨
         (Call.fetchAndTranslate x : Call P).path
           = (Call.fetchAndTranslate y : Call P).path ∨
         (Call.polish x : Call P).path = (Call.polish y : Call P).path) :
    x = y := by
  rcases h with h | h | h | h | h
  · exact article_inj x y h
  · exact articles_inj x y _ h
  · exact articles_inj x y _ h
  · exact articles_inj x y _ h
  · exact articles_inj x y _ h

/-- Witness for C10 at the identifier `42`. -/
theorem path_injective_in_identifier_witness :
    (Call.polish "42" : Call Nat).path = (Call.polish "42" : Call Nat).path ∧
    "42" = "42" :=
  ⟨rfl, @path_injective_in_identifier Nat "42" "42"
    (Or.inr (Or.inr (Or.inr (Or.inr rfl))))⟩

end NewsApi
